import Mathlib

/-!
Shallow embedding of `src/js/script.js` (the Aris game widget) and proofs of
the behavioural claims about it.

Modelling conventions:
* JavaScript numbers that are known to stay integral are modelled as `Int`;
  the `NaN` value that `parseInt` can produce is modelled by `Option Int`
  (`none` = NaN), which is propagated by arithmetic as in JS.
* `Math.random()` results are modelled as an explicit rational argument `r`
  with `0 ≤ r < 1`.
* `localStorage` is modelled by the single slot the program uses
  (key `count-v2`) as an `Option String`, together with read/write counters
  so that "exactly one persistence write per interaction" is expressible.
* The DOM is modelled as a lookup function `String → Option Nat` (element
  identity by number, `none` when `document.getElementById` returns null).
* Asynchronous settlement order of the audio fetch tasks is modelled by a
  list of per-task outcomes given in completion order (`some payload` for a
  successful fetch+decode, `none` for a failure); the browser event loop is
  single threaded, so the `finally` blocks run atomically in that order.
-/

namespace ArisScript

/-- The shape of the value stored under a text key of `GAME_CONFIG.texts`:
either a fixed string or an array of variants (script.js lines 21-28). -/
inductive TextContent where
  | fixed (s : String)
  | variants (ss : List String)
deriving DecidableEq, Repr

/-- Lookup `GAME_CONFIG.texts[key]` (script.js lines 21-28); `none` models a
property access that yields `undefined`. -/
def textsLookup (key : String) : Option TextContent :=
  if key = "page-title" then some (.fixed "Welcome to Aris")
  else if key = "doc-title" then some (.fixed "邦卡卡邦")
  else if key = "page-descriptions" then
    some (.fixed "给爱丽丝酱写的小网站，对，就是那个最可爱的《蔚蓝档案》角色！")
  else if key = "counter-descriptions" then
    some (.variants ["爱丽丝已经“邦卡卡邦！”了", "爱丽丝已经摇了"])
  else if key = "counter-unit" then some (.variants ["次", "次"])
  else if key = "counter-button" then some (.variants ["邦卡卡邦！", "SenSei！"])
  else none

/-- Embeds `GAME_CONFIG.audioList` (script.js lines 16-19). -/
def audioList : List String := ["audio/1.mp3", "audio/2.mp3"]

/-- Embeds `GAME_CONFIG.preloadImages` (script.js lines 30-33). -/
def preloadImages : List String := ["img/arisu1.gif", "img/arisu2.gif"]

/-- Digit accumulator used by the `parseInt` model. -/
def digitsToNat (ds : List Char) : Nat :=
  ds.foldl (fun a c => a * 10 + (c.toNat - 48)) 0

/-- Model of JavaScript `parseInt(s)` restricted to the decimal forms that
occur here: leading whitespace is skipped, an optional sign is read, then the
longest prefix of decimal digits; if that prefix is empty the result is `NaN`
(`none`). (The hexadecimal `0x` prefix of full `parseInt` is not modelled;
no claim involves it.) -/
def jsParseInt (s : String) : Option Int :=
  let cs := s.toList.dropWhile (fun c => c.isWhitespace)
  let signRest : Int × List Char :=
    match cs with
    | '-' :: t => (-1, t)
    | '+' :: t => (1, t)
    | _ => (1, cs)
  let ds := signRest.2.takeWhile (fun c => c.isDigit)
  if ds = [] then none
  else some (signRest.1 * (digitsToNat ds : Int))

/-- JavaScript `v || dflt` for a nullable string `v`: `null` and the empty
string are falsy, any other string is truthy. -/
def jsOrDefault (v : Option String) (dflt : String) : String :=
  match v with
  | none => dflt
  | some s => if s = "" then dflt else s

/-- The read performed at initialization (script.js line 129):
`parseInt(localStorage.getItem('count-v2') || '0')`. `none` models NaN. -/
def readStoredCount (slot : Option String) : Option Int :=
  jsParseInt (jsOrDefault slot "0")

/-- JavaScript number-to-string conversion for the values the counter can
hold: an integer prints in decimal, NaN prints as the string NaN. -/
def jsNumToString : Option Int → String
  | none => "NaN"
  | some n => toString n

/-- Increment `count++` on a JS number that may be NaN: NaN + 1 = NaN. -/
def jsNumSucc : Option Int → Option Int
  | none => none
  | some n => some (n + 1)

/-! ### ResourceManager (script.js lines 38-98) -/

/-- The observable result of one `ResourceManager.loadAll` run. -/
structure LoadAllResult where
  /-- Value of `this.audioCache` after resolution (successful Base64 payloads, in
  completion order). -/
  audioCache : List String
  /-- Value of `this.isReady` after resolution. -/
  isReady : Bool
  /-- The `onProgress (loadedCount, total)` invocations, in order. -/
  progressCalls : List (Nat × Nat)
  /-- The image sources eagerly assigned to fresh `Image` objects
  (fire-and-forget; not awaited, not cached, no progress reported). -/
  imagePrefetches : List String
deriving DecidableEq, Repr

/-- Runs the per-locator audio tasks of `loadAll` (script.js lines 55-67) in
settlement order. Each entry of `outcomes` is one task's settlement
(`some payload`: the fetch+decode succeeded and `payload` is pushed onto the
cache; `none`: it threw and was logged). In both cases the `finally` block
increments `loadedCount` and calls `onProgress (loadedCount, total)`.
Returns the cache contents and the progress calls. -/
def runAudioTasks : List (Option String) → Nat → Nat → List String × List (Nat × Nat)
  | [], _, _ => ([], [])
  | o :: rest, loaded, total =>
    let tail := runAudioTasks rest (loaded + 1) total
    match o with
    | some payload => (payload :: tail.1, (loaded + 1, total) :: tail.2)
    | none => (tail.1, (loaded + 1, total) :: tail.2)

/-- Embeds `ResourceManager.loadAll` (script.js lines 49-77). `outcomes` lists the
settlement of each configured audio locator's task, in completion order
(one entry per locator: `await Promise.all` resolves exactly when all of
them have settled, so the run is a total function of these settlements).
Image prefetch is fired but never awaited: it contributes no outcome, no
progress call, and does not gate resolution. After the join, `isReady` is
set to true. -/
def loadAll (outcomes : List (Option String)) : LoadAllResult :=
  let total := audioList.length
  let run := runAudioTasks outcomes 0 total
  { audioCache := run.1
    isReady := true
    progressCalls := run.2
    imagePrefetches := preloadImages }

/-- Embeds `ResourceManager.getRandomAudio` (script.js lines 93-97): `null` on an
empty cache, otherwise the entry at index `Math.floor (Math.random() * length)`
where `r` models the `Math.random()` draw. -/
def getRandomAudio (audioCache : List String) (r : ℚ) : Option String :=
  if audioCache.length = 0 then none
  else audioCache[(⌊r * audioCache.length⌋).toNat]?

/-! ### ArisGame (script.js lines 103-257) -/

/-- One `Audio` object spawned by `ArisGame.playAudio`. -/
structure AudioPlay where
  src : String
  volume : ℚ
deriving DecidableEq, Repr

/-- Embeds `ArisGame.playAudio` (script.js lines 174-186): pick a random cached
audio; if `null`, return without playing; otherwise play it at volume 0.6. -/
def playAudio (audioCache : List String) (r : ℚ) : Option AudioPlay :=
  match getRandomAudio audioCache r with
  | none => none
  | some source => some { src := source, volume := 6 / 10 }

/-- The id drawn by `ArisGame.spawnHerta` (script.js line 192):
`Math.floor(Math.random() * 2) + 1`. -/
def spawnHertaId (r : ℚ) : Nat :=
  (⌊r * 2⌋).toNat + 1

/-- The `img.src` assigned by `ArisGame.spawnHerta` (script.js lines 191-201). -/
def spawnHerta (r : ℚ) : String :=
  "img/arisu" ++ toString (spawnHertaId r) ++ ".gif"

/-- The pointer event fields `createRipple` reads. -/
structure PointerEvent where
  clientX : ℚ
  clientY : ℚ
deriving DecidableEq, Repr

/-- The control's `getBoundingClientRect()` fields `createRipple` reads. -/
structure Rect where
  left : ℚ
  top : ℚ
  width : ℚ
  height : ℚ
deriving DecidableEq, Repr

/-- The ripple `span` produced by one `createRipple` call: its inline style
assignments and the delay after which `setTimeout` removes it. -/
structure RippleElem where
  width : ℚ
  height : ℚ
  left : ℚ
  top : ℚ
  removeAfterMs : Nat
deriving DecidableEq, Repr

/-- Embeds `ArisGame.createRipple` (script.js lines 206-225): size is the larger of
the control's width and height; the span's left/top place it at the pointer's
offset inside the control minus half the size; removal is scheduled 400 ms
later. -/
def createRipple (e : PointerEvent) (rect : Rect) : RippleElem :=
  let size := max rect.width rect.height
  let x := e.clientX - rect.left - size / 2
  let y := e.clientY - rect.top - size / 2
  { width := size, height := size, left := x, top := y, removeAfterMs := 400 }

/-- Embeds `setRandomText` inside `ArisGame.refreshTexts` (script.js lines 245-250),
for a present element: look up the key; a plain string is used as is, an
array contributes the entry at `Math.floor(Math.random() * length)`.
`none` means nothing is assigned (missing key). -/
def setRandomText (r : ℚ) (key : String) : Option String :=
  match textsLookup key with
  | none => none
  | some (.fixed s) => some s
  | some (.variants ss) => ss[(⌊r * ss.length⌋).toNat]?

/-! ### Interaction data updates (script.js lines 159-169) -/

/-- The state touched by the data-update half of `handleInteraction`:
the in-memory counter (`none` = NaN), the `count-v2` slot, and a count of
`localStorage.setItem` calls on that slot. -/
structure InteractionState where
  count : Option Int
  slot : Option String
  writes : Nat
deriving DecidableEq, Repr

/-- The data-update portion of `ArisGame.handleInteraction` (script.js lines
160-161): `this.count++` followed by `localStorage.setItem('count-v2',
this.count)` — exactly one write per call. The audiovisual feedback the
handler then fires (`updateDisplay`, `playAudio`, `spawnHerta`,
`createRipple`) touches only DOM/audio objects and is embedded separately
above. -/
def handleInteraction (s : InteractionState) : InteractionState :=
  let c := jsNumSucc s.count
  { count := c, slot := some (jsNumToString c), writes := s.writes + 1 }

/-! ### Initialization (script.js lines 111-141) -/

/-- The handle bindings `this.elements` built by `init` (script.js lines
113-124); each field is a fresh `document.getElementById` result. -/
structure Elements where
  btn : Option Nat
  counter : Option Nat
  loading : Option Nat
  title : Option Nat
  desc : Option Nat
  ctDesc : Option Nat
  ctUnit : Option Nat
deriving DecidableEq, Repr

/-- The fresh DOM lookups performed at the top of `init`. -/
def initElements (dom : String → Option Nat) : Elements :=
  { btn := dom "counter-button"
    counter := dom "local-counter"
    loading := dom "loading"
    title := dom "page-title"
    desc := dom "page-descriptions"
    ctDesc := dom "counter-descriptions"
    ctUnit := dom "counter-unit" }

/-- The program state `ArisGame.init` can touch, plus effect counters:
`reads`/`writes` count `localStorage` accesses of the `count-v2` slot,
`managerGen` counts `new ResourceManager()` constructions, and `fetches`
counts network requests issued (audio fetches and image prefetches). -/
structure World where
  elements : Elements
  count : Option Int
  managerGen : Nat
  slot : Option String
  reads : Nat
  writes : Nat
  fetches : Nat
deriving DecidableEq, Repr

/-- Embeds `ArisGame.init` (script.js lines 111-141). It first rebinds
`this.elements` from fresh DOM lookups; if the counter button was not found
it returns at once (wrong page). Otherwise it reads the persisted counter
(one `localStorage.getItem`), renders it, constructs a fresh
`ResourceManager` and starts `loadAll`, which issues one fetch per audio
locator and one image request per preload image. -/
def init (w : World) (dom : String → Option Nat) : World :=
  let w1 := { w with elements := initElements dom }
  if w1.elements.btn = none then w1
  else
    { w1 with
      count := readStoredCount w1.slot
      reads := w1.reads + 1
      managerGen := w1.managerGen + 1
      fetches := w1.fetches + audioList.length + preloadImages.length }

/-! ### Entry point (script.js lines 264-281) -/

/-- The state the entry point touches: `window.arisGameInitialized`
(`false` models both `undefined` and `false`) and a count of the
`ArisGame.init()` calls performed. -/
structure EntryState where
  arisGameInitialized : Bool
  initCalls : Nat
deriving DecidableEq, Repr

/-- Embeds `main` (script.js lines 264-272), the `DOMContentLoaded` handler: it
returns early when `window.arisGameInitialized` is truthy and otherwise
calls `ArisGame.init()`. Note that the source never assigns
`window.arisGameInitialized` anywhere, so the flag keeps its initial value. -/
def mainEntry (s : EntryState) : EntryState :=
  if s.arisGameInitialized then s
  else { s with initCalls := s.initCalls + 1 }

/-- The `pjax:complete` handler (script.js lines 277-280): it calls
`ArisGame.init()` unconditionally, with no guard flag consulted. -/
def onPjaxComplete (s : EntryState) : EntryState :=
  { s with initCalls := s.initCalls + 1 }

/-! ### Shared helper lemmas -/

/-- Bounds on a `Math.floor(Math.random() * n)` draw: with `0 ≤ r < 1` and
`0 < n`, the floor lies in `[0, n-1]`. -/
theorem floor_rand_mul (r : ℚ) (n : Nat) (h0 : 0 ≤ r) (h1 : r < 1) (hn : 0 < n) :
    0 ≤ ⌊r * (n : ℚ)⌋ ∧ ⌊r * (n : ℚ)⌋ < (n : Int) := by
  have hnq : (0 : ℚ) < (n : ℚ) := by exact_mod_cast hn
  have hlt : r * (n : ℚ) < (n : ℚ) := by
    have := mul_lt_mul_of_pos_right h1 hnq
    simpa using this
  constructor
  · exact Int.floor_nonneg.mpr (mul_nonneg h0 (le_of_lt hnq))
  · exact Int.floor_lt.mpr (by exact_mod_cast hlt)

/-! ### Claim C6: random audio selection stays in range -/

/-- Claim C6: `getRandomAudio` returns null exactly when the cache is empty
(in which case `playAudio` skips playback), and on a cache of size M > 0
every draw's index `Math.floor(r * M)` lies in `[0, M-1]` and the result is
one of the M cached entries. -/
theorem getRandomAudio_safe (cache : List String) (r : ℚ) (h0 : 0 ≤ r) (h1 : r < 1) :
    (getRandomAudio cache r = none ↔ cache = []) ∧
    (cache = [] → playAudio cache r = none) ∧
    (cache ≠ [] →
      (⌊r * (cache.length : ℚ)⌋).toNat < cache.length ∧
      ∃ a ∈ cache, getRandomAudio cache r = some a) := by
  by_cases hc : cache = []
  · subst hc
    refine ⟨by simp [getRandomAudio], fun _ => by simp [playAudio, getRandomAudio], fun h => absurd rfl h⟩
  · have hlen : 0 < cache.length := List.length_pos.mpr hc
    have hb := floor_rand_mul r cache.length h0 h1 hlen
    have hidx : (⌊r * (cache.length : ℚ)⌋).toNat < cache.length := by omega
    have hget : getRandomAudio cache r = some (cache.get ⟨(⌊r * (cache.length : ℚ)⌋).toNat, hidx⟩) := by
      simp [getRandomAudio, Nat.pos_iff_ne_zero.mp hlen, List.getElem?_eq_getElem hidx]
    refine ⟨?_, fun h => absurd h hc, fun _ => ⟨hidx, cache.get ⟨_, hidx⟩, List.get_mem cache _ hidx, hget⟩⟩
    constructor
    · intro hnone
      rw [hget] at hnone
      exact absurd hnone (by simp)
    · intro h
      exact absurd h hc

/-- Witness for C6 at a concrete cache of size 2 and draw 1/2: the index is
1 and the selected entry is the second cached payload. -/
theorem getRandomAudio_safe_witness :
    (0 : ℚ) ≤ 1 / 2 ∧ (1 / 2 : ℚ) < 1 ∧
    ((getRandomAudio ["a", "b"] (1 / 2) = none ↔ (["a", "b"] : List String) = []) ∧
      ((["a", "b"] : List String) = [] → playAudio ["a", "b"] (1 / 2) = none) ∧
      ((["a", "b"] : List String) ≠ [] →
        (⌊(1 / 2 : ℚ) * ((["a", "b"] : List String).length : ℚ)⌋).toNat < (["a", "b"] : List String).length ∧
        ∃ a ∈ (["a", "b"] : List String), getRandomAudio ["a", "b"] (1 / 2) = some a)) :=
  ⟨by norm_num, by norm_num, getRandomAudio_safe ["a", "b"] (1 / 2) (by norm_num) (by norm_num)⟩

/-! ### Claim C9: spawnHerta only shows prefetched images -/

/-- Claim C9: the id drawn by `spawnHerta` is always 1 or 2, so the element's
src is `img/arisu1.gif` or `img/arisu2.gif`, both members of
`GAME_CONFIG.preloadImages` — the shown image was always prefetched. -/
theorem spawnHerta_src_preloaded (r : ℚ) (h0 : 0 ≤ r) (h1 : r < 1) :
    (spawnHertaId r = 1 ∨ spawnHertaId r = 2) ∧ spawnHerta r ∈ preloadImages := by
  have hb := floor_rand_mul r 2 h0 h1 (by norm_num)
  have h2 : ⌊r * (2 : ℚ)⌋ = 0 ∨ ⌊r * (2 : ℚ)⌋ = 1 := by
    have : ((2 : Nat) : ℚ) = (2 : ℚ) := by norm_num
    rw [this] at hb
    omega
  have hid : spawnHertaId r = 1 ∨ spawnHertaId r = 2 := by
    unfold spawnHertaId
    rcases h2 with h | h <;> rw [h] <;> simp
  refine ⟨hid, ?_⟩
  unfold spawnHerta
  rcases hid with h | h <;> rw [h] <;> decide

/-- Witness for C9 at draw 1/2: id 2, src `img/arisu2.gif`, a preload image. -/
theorem spawnHerta_src_preloaded_witness :
    (0 : ℚ) ≤ 1 / 2 ∧ (1 / 2 : ℚ) < 1 ∧
    ((spawnHertaId (1 / 2) = 1 ∨ spawnHertaId (1 / 2) = 2) ∧ spawnHerta (1 / 2) ∈ preloadImages) :=
  ⟨by norm_num, by norm_num, spawnHerta_src_preloaded (1 / 2) (by norm_num) (by norm_num)⟩

/-! ### Claim C10: the counter-unit text refresh is observationally deterministic -/

/-- For any valid random draw, the counter-unit slot evaluates to the
string 次, because both configured variants are that same string. -/
theorem setRandomText_counterUnit (r : ℚ) (h0 : 0 ≤ r) (h1 : r < 1) :
    setRandomText r "counter-unit" = some "次" := by
  have hb := floor_rand_mul r 2 h0 h1 (by norm_num)
  have h2 : ⌊r * ((2 : Nat) : ℚ)⌋ = 0 ∨ ⌊r * ((2 : Nat) : ℚ)⌋ = 1 := by omega
  have hcast : ((2 : Nat) : ℚ) = ((["次", "次"].length : Nat) : ℚ) := by norm_num
  rw [hcast] at h2
  show (match textsLookup "counter-unit" with
    | none => none
    | some (.fixed s) => some s
    | some (.variants ss) => ss[(⌊r * (ss.length : ℚ)⌋).toNat]?) = some "次"
  rw [show textsLookup "counter-unit" = some (.variants ["次", "次"]) from rfl]
  rcases h2 with h | h <;> simp only [] <;> rw [h] <;> rfl

/-- Claim C10: although `refreshTexts` picks a random variant for the
`counter-unit` element, any two executions assign it the same text. -/
theorem counterUnit_deterministic (r₁ r₂ : ℚ)
    (h0 : 0 ≤ r₁) (h1 : r₁ < 1) (h0' : 0 ≤ r₂) (h1' : r₂ < 1) :
    setRandomText r₁ "counter-unit" = setRandomText r₂ "counter-unit" ∧
    setRandomText r₁ "counter-unit" = some "次" := by
  rw [setRandomText_counterUnit r₁ h0 h1, setRandomText_counterUnit r₂ h0' h1']
  exact ⟨rfl, rfl⟩

/-- Witness for C10 at the two extreme draws 0 and 2/3. -/
theorem counterUnit_deterministic_witness :
    (0 : ℚ) ≤ 0 ∧ (0 : ℚ) < 1 ∧ (0 : ℚ) ≤ 2 / 3 ∧ (2 / 3 : ℚ) < 1 ∧
    (setRandomText 0 "counter-unit" = setRandomText (2 / 3) "counter-unit" ∧
      setRandomText 0 "counter-unit" = some "次") :=
  ⟨le_refl 0, by norm_num, by norm_num, by norm_num,
    counterUnit_deterministic 0 (2 / 3) (le_refl 0) (by norm_num) (by norm_num) (by norm_num)⟩

/-! ### Claim C8: ripple geometry and removal delay -/

/-- Claim C8: each interaction's ripple is an s-by-s square with
s = max(width, height), positioned so its left/top are the pointer offset
minus s/2 — hence its center coincides with the pointer's offset within the
control — and it is removed after the fixed 400 ms delay. -/
theorem createRipple_centered (e : PointerEvent) (rect : Rect) :
    (createRipple e rect).width = max rect.width rect.height ∧
    (createRipple e rect).height = max rect.width rect.height ∧
    (createRipple e rect).left = e.clientX - rect.left - max rect.width rect.height / 2 ∧
    (createRipple e rect).top = e.clientY - rect.top - max rect.width rect.height / 2 ∧
    (createRipple e rect).left + max rect.width rect.height / 2 = e.clientX - rect.left ∧
    (createRipple e rect).top + max rect.width rect.height / 2 = e.clientY - rect.top ∧
    (createRipple e rect).removeAfterMs = 400 := by
  refine ⟨rfl, rfl, rfl, rfl, ?_, ?_, rfl⟩ <;> simp [createRipple]

/-! ### Claim C7: the document-ready guard flag -/

/-- Claim C7 fails on the code: `main` consults `window.arisGameInitialized`
but never sets it, so from a fresh page state two document-ready calls to
`main` both run `ArisGame.init()` — the second is not suppressed, and the
flag is still unset afterwards. -/
theorem mainEntry_no_guard_set :
    mainEntry (mainEntry { arisGameInitialized := false, initCalls := 0 }) =
      { arisGameInitialized := false, initCalls := 2 } := by
  decide

/-! ### Claim C1: N interactions add N to the persisted counter -/

/-- Closed form of iterating the interaction data update at least once from
an integer-valued counter. -/
theorem handleInteraction_iterate_succ (c : Int) (slot₀ : Option String) (w₀ N : Nat) :
    handleInteraction^[N + 1] { count := some c, slot := slot₀, writes := w₀ } =
      { count := some (c + (N : Int) + 1)
        slot := some (toString (c + (N : Int) + 1))
        writes := w₀ + N + 1 } := by
  induction N with
  | zero =>
    simp [handleInteraction, jsNumSucc, jsNumToString]
  | succ n ih =>
    rw [Function.iterate_succ_apply', ih]
    have harg : c + (n : Int) + 1 + 1 = c + ((n + 1 : Nat) : Int) + 1 := by push_cast; ring
    simp only [handleInteraction, jsNumSucc, jsNumToString, InteractionState.mk.injEq]
    refine ⟨by rw [harg], by rw [harg], by omega⟩

/-- Claim C1: starting from the in-memory counter value read at
initialization (an integer `c`), a sequence of `N ≥ 1` interactions leaves
the in-memory counter at `c + N`, leaves the persisted `count-v2` slot
holding the decimal string of `c + N`, and performs exactly `N` writes to
the slot — one per interaction. -/
theorem counter_after_interactions (s₀ : InteractionState) (c : Int) (N : Nat)
    (hc : s₀.count = some c) (hN : 1 ≤ N) :
    (handleInteraction^[N] s₀).count = some (c + (N : Int)) ∧
    (handleInteraction^[N] s₀).slot = some (toString (c + (N : Int))) ∧
    (handleInteraction^[N] s₀).writes = s₀.writes + N := by
  obtain ⟨n, rfl⟩ : ∃ n, N = n + 1 := ⟨N - 1, by omega⟩
  have hs : s₀ = { count := some c, slot := s₀.slot, writes := s₀.writes } := by
    cases s₀
    simp_all
  rw [hs, handleInteraction_iterate_succ]
  have harg : c + (n : Int) + 1 = c + ((n + 1 : Nat) : Int) := by push_cast; ring
  refine ⟨?_, ?_, ?_⟩
  · show some (c + (n : Int) + 1) = some (c + ((n + 1 : Nat) : Int))
    rw [harg]
  · show some (toString (c + (n : Int) + 1)) = some (toString (c + ((n + 1 : Nat) : Int)))
    rw [harg]
  · show s₀.writes + n + 1 = s₀.writes + (n + 1)
    omega

/-- Witness for C1: three clicks starting from a counter of 5 yield counter
8, slot "8" and exactly three writes. -/
theorem counter_after_interactions_witness :
    ({ count := some 5, slot := some "5", writes := 2 } : InteractionState).count = some 5 ∧
    1 ≤ 3 ∧
    (handleInteraction^[3] { count := some 5, slot := some "5", writes := 2 }).count = some 8 ∧
    (handleInteraction^[3] { count := some 5, slot := some "5", writes := 2 }).slot = some "8" ∧
    (handleInteraction^[3] { count := some 5, slot := some "5", writes := 2 }).writes = 2 + 3 := by
  have h := counter_after_interactions { count := some 5, slot := some "5", writes := 2 } 5 3 rfl (by norm_num)
  have h8 : (5 : Int) + ((3 : Nat) : Int) = 8 := by norm_num
  rw [h8] at h
  exact ⟨rfl, by norm_num, h.1, by rw [h.2.1]; rfl, h.2.2⟩

/-! ### Claims C2 and C5: loadAll progress reporting and partial-failure tolerance -/

/-- The progress calls made by the audio tasks carry the loaded counts
`loaded+1, loaded+2, ...`, one per settlement, in order. -/
theorem runAudioTasks_calls_fst (os : List (Option String)) (loaded total : Nat) :
    (runAudioTasks os loaded total).2.map Prod.fst = List.range' (loaded + 1) os.length := by
  induction os generalizing loaded with
  | nil => rfl
  | cons o rest ih =>
    cases o <;>
      simp only [runAudioTasks, List.map_cons, List.length_cons, List.range'_succ, ih]

/-- Every progress call reports the configured total as its second field. -/
theorem runAudioTasks_calls_snd (os : List (Option String)) (loaded total : Nat) :
    ∀ p ∈ (runAudioTasks os loaded total).2, p.2 = total := by
  induction os generalizing loaded with
  | nil => intro p hp; cases hp
  | cons o rest ih =>
    intro p hp
    cases o <;> simp only [runAudioTasks, List.mem_cons] at hp <;>
      rcases hp with rfl | hp <;> first | rfl | exact ih (loaded + 1) p hp

/-- The cache built by the audio tasks is exactly the successful payloads,
in settlement order. -/
theorem runAudioTasks_cache (os : List (Option String)) (loaded total : Nat) :
    (runAudioTasks os loaded total).1 = os.filterMap id := by
  induction os generalizing loaded with
  | nil => rfl
  | cons o rest ih =>
    cases o <;> simp only [runAudioTasks, List.filterMap_cons, id, ih]

/-- Claim C2: one `loadAll` batch resolves after every audio locator's task
has settled — the model consumes exactly one settlement per configured
locator, and only audio settlements (image prefetches are fired but gate
nothing) — and `onProgress` is called exactly `total` times, with
`completedCount` running 1, 2, ..., total, each call reporting the same
`total` = number of configured audio locators. -/
theorem loadAll_progress (outcomes : List (Option String))
    (h : outcomes.length = audioList.length) :
    (loadAll outcomes).progressCalls.length = audioList.length ∧
    (loadAll outcomes).progressCalls.map Prod.fst = List.range' 1 audioList.length ∧
    (∀ p ∈ (loadAll outcomes).progressCalls, p.2 = audioList.length) ∧
    (loadAll outcomes).isReady = true ∧
    (loadAll outcomes).imagePrefetches = preloadImages := by
  refine ⟨?_, ?_, ?_, rfl, rfl⟩
  · have := congrArg List.length (runAudioTasks_calls_fst outcomes 0 audioList.length)
    simpa [loadAll, h] using this
  · simpa [loadAll, h] using runAudioTasks_calls_fst outcomes 0 audioList.length
  · exact runAudioTasks_calls_snd outcomes 0 audioList.length

/-- Witness for C2 on the settlement order "first locator succeeds, then the
second": two progress calls, counts 1 then 2, each with total 2. -/
theorem loadAll_progress_witness :
    ([some "a", some "b"] : List (Option String)).length = audioList.length ∧
    ((loadAll [some "a", some "b"]).progressCalls.length = audioList.length ∧
      (loadAll [some "a", some "b"]).progressCalls.map Prod.fst = List.range' 1 audioList.length ∧
      (∀ p ∈ (loadAll [some "a", some "b"]).progressCalls, p.2 = audioList.length) ∧
      (loadAll [some "a", some "b"]).isReady = true ∧
      (loadAll [some "a", some "b"]).imagePrefetches = preloadImages) :=
  ⟨by decide, loadAll_progress [some "a", some "b"] (by decide)⟩

/-- Claim C5: an individual locator's failure never aborts the batch —
`loadAll` still resolves with the readiness flag true, still reports one
progress call per locator, and the cache holds exactly the successfully
loaded payloads (hence at most `total` entries). -/
theorem loadAll_partial_failure (outcomes : List (Option String))
    (h : outcomes.length = audioList.length) :
    (loadAll outcomes).isReady = true ∧
    (loadAll outcomes).audioCache = outcomes.filterMap id ∧
    (loadAll outcomes).audioCache.length ≤ audioList.length ∧
    (loadAll outcomes).progressCalls.length = audioList.length := by
  have hc : (loadAll outcomes).audioCache = outcomes.filterMap id :=
    runAudioTasks_cache outcomes 0 audioList.length
  refine ⟨rfl, hc, ?_, ?_⟩
  · rw [hc, ← h]
    exact List.length_filterMap_le id outcomes
  · have := congrArg List.length (runAudioTasks_calls_fst outcomes 0 audioList.length)
    simpa [loadAll, h] using this

/-- Witness for C5 on the spec's scenario: the first locator fails, the
second succeeds — the batch resolves ready, with a one-entry cache and two
progress calls. -/
theorem loadAll_partial_failure_witness :
    ([none, some "b"] : List (Option String)).length = audioList.length ∧
    ((loadAll [none, some "b"]).isReady = true ∧
      (loadAll [none, some "b"]).audioCache = ([none, some "b"] : List (Option String)).filterMap id ∧
      (loadAll [none, some "b"]).audioCache.length ≤ audioList.length ∧
      (loadAll [none, some "b"]).progressCalls.length = audioList.length) :=
  ⟨by decide, loadAll_partial_failure [none, some "b"] (by decide)⟩

/-! ### Claims C3 and C4: initialization -/

/-- Handle bindings as they stand after a previous initialization on the
game page (concrete sample input). -/
def elementsBound : Elements :=
  { btn := some 1, counter := some 2, loading := some 3, title := some 4
    desc := some 5, ctDesc := some 6, ctUnit := some 7 }

/-- Empty handle bindings (concrete sample input). -/
def elementsNone : Elements :=
  { btn := none, counter := none, loading := none, title := none
    desc := none, ctDesc := none, ctUnit := none }

/-- A world mid-session on the game page (concrete sample input). -/
def worldOnGamePage : World :=
  { elements := elementsBound, count := some 5, managerGen := 1
    slot := some "5", reads := 1, writes := 5, fetches := 4 }

/-- A DOM with none of the game's elements (a non-game page). -/
def domBlank : String → Option Nat := fun _ => none

/-- A DOM where every looked-up id resolves to an element. -/
def domGamePage : String → Option Nat := fun _ => some 0

/-- Claim C3 as stated is refuted at this input: after navigating from the
game page to a page without the `counter-button` element, `init` aborts —
yet the handle bindings HAVE changed, because `this.elements` is rebuilt
from fresh DOM lookups before the button check. The remaining state and the
network counter are indeed untouched. -/
theorem init_absent_button_rebinds :
    (init worldOnGamePage domBlank).elements ≠ worldOnGamePage.elements ∧
    (init worldOnGamePage domBlank).elements.btn = none ∧
    worldOnGamePage.elements.btn = some 1 := by
  decide

/-- Claim C3 (amended): when the `counter-button` lookup finds nothing,
`init` performs nothing beyond rebinding `this.elements` to the fresh DOM
lookups: the counter, the manager, the persisted slot, the storage
read/write counters and the network-request counter are all unchanged. -/
theorem init_absent_button_aborts (w : World) (dom : String → Option Nat)
    (h : dom "counter-button" = none) :
    init w dom = { w with elements := initElements dom } ∧
    (init w dom).count = w.count ∧
    (init w dom).managerGen = w.managerGen ∧
    (init w dom).slot = w.slot ∧
    (init w dom).reads = w.reads ∧
    (init w dom).writes = w.writes ∧
    (init w dom).fetches = w.fetches := by
  have hmain : init w dom = { w with elements := initElements dom } := by
    simp only [init]
    rw [show (initElements dom).btn = dom "counter-button" from rfl, h]
    simp
  rw [hmain]
  exact ⟨rfl, rfl, rfl, rfl, rfl, rfl, rfl⟩

/-- Witness for the amended C3 on the concrete mid-session world and the
blank DOM. -/
theorem init_absent_button_aborts_witness :
    domBlank "counter-button" = none ∧
    (init worldOnGamePage domBlank = { worldOnGamePage with elements := initElements domBlank } ∧
      (init worldOnGamePage domBlank).count = worldOnGamePage.count ∧
      (init worldOnGamePage domBlank).managerGen = worldOnGamePage.managerGen ∧
      (init worldOnGamePage domBlank).slot = worldOnGamePage.slot ∧
      (init worldOnGamePage domBlank).reads = worldOnGamePage.reads ∧
      (init worldOnGamePage domBlank).writes = worldOnGamePage.writes ∧
      (init worldOnGamePage domBlank).fetches = worldOnGamePage.fetches) :=
  ⟨rfl, init_absent_button_aborts worldOnGamePage domBlank rfl⟩

/-- A fresh world whose persisted slot holds a string with no parsable
integer prefix (concrete sample input). -/
def worldAbcSlot : World :=
  { elements := elementsNone, count := some 0, managerGen := 0
    slot := some "abc", reads := 0, writes := 0, fetches := 0 }

/-- Claim C4 as stated is refuted at this input: with the stored value
"abc" (not parsable to an integer), `init` on the game page leaves the
in-memory counter NaN — `parseInt('abc' || '0')` is NaN, not 0; the `|| '0'`
fallback only covers an absent or empty slot. -/
theorem init_unparsable_slot_not_zero :
    (init worldAbcSlot domGamePage).count = none ∧
    (init worldAbcSlot domGamePage).count ≠ some 0 := by
  decide

/-- Claim C4 (amended): when `init` proceeds (button found), the persisted
slot is read exactly once, and the resulting counter is
`parseInt(slot || '0')`: it is 0 when the slot is absent or holds the empty
string, and NaN whenever the stored value has no parsable integer prefix. -/
theorem init_reads_once_and_defaults (w : World) (dom : String → Option Nat) (el : Nat)
    (h : dom "counter-button" = some el) :
    (init w dom).reads = w.reads + 1 ∧
    (init w dom).count = readStoredCount w.slot ∧
    (w.slot = none → (init w dom).count = some 0) ∧
    (w.slot = some "" → (init w dom).count = some 0) ∧
    (jsParseInt (jsOrDefault w.slot "0") = none → (init w dom).count = none) := by
  have hmain : init w dom =
      { w with
        elements := initElements dom
        count := readStoredCount w.slot
        reads := w.reads + 1
        managerGen := w.managerGen + 1
        fetches := w.fetches + audioList.length + preloadImages.length } := by
    simp only [init]
    rw [show (initElements dom).btn = dom "counter-button" from rfl, h]
    simp
  rw [hmain]
  refine ⟨rfl, rfl, ?_, ?_, ?_⟩
  · intro hs
    rw [show ({ w with
        elements := initElements dom
        count := readStoredCount w.slot
        reads := w.reads + 1
        managerGen := w.managerGen + 1
        fetches := w.fetches + audioList.length + preloadImages.length } : World).count =
      readStoredCount w.slot from rfl, hs]
    rfl
  · intro hs
    rw [show ({ w with
        elements := initElements dom
        count := readStoredCount w.slot
        reads := w.reads + 1
        managerGen := w.managerGen + 1
        fetches := w.fetches + audioList.length + preloadImages.length } : World).count =
      readStoredCount w.slot from rfl, hs]
    rfl
  · intro hs
    rw [show ({ w with
        elements := initElements dom
        count := readStoredCount w.slot
        reads := w.reads + 1
        managerGen := w.managerGen + 1
        fetches := w.fetches + audioList.length + preloadImages.length } : World).count =
      readStoredCount w.slot from rfl]
    exact hs

/-- A fresh world whose persisted slot is absent (concrete sample input). -/
def worldNoSlot : World :=
  { elements := elementsNone, count := some 0, managerGen := 0
    slot := none, reads := 0, writes := 0, fetches := 0 }

/-- Witness for the amended C4 on a fresh world with an absent slot: the
counter comes up 0 and exactly one read happened. -/
theorem init_reads_once_and_defaults_witness :
    domGamePage "counter-button" = some 0 ∧
    ((init worldNoSlot domGamePage).reads = worldNoSlot.reads + 1 ∧
      (init worldNoSlot domGamePage).count = readStoredCount worldNoSlot.slot ∧
      (worldNoSlot.slot = none → (init worldNoSlot domGamePage).count = some 0) ∧
      (worldNoSlot.slot = some "" → (init worldNoSlot domGamePage).count = some 0) ∧
      (jsParseInt (jsOrDefault worldNoSlot.slot "0") = none →
        (init worldNoSlot domGamePage).count = none)) :=
  ⟨rfl, init_reads_once_and_defaults worldNoSlot domGamePage 0 rfl⟩

end ArisScript
